import Mathlib

/-!
Shallow embedding of the gotoken OAuth token manager
(`pkg/oauth/token.go` and the token-manager file of package `oauth`).

Durations are modelled as integers counting nanoseconds, mirroring Go
`time.Duration` (`time.Second = 1e9 ns`); where the source performs
duration arithmetic that can overflow Go int64 (the reactive schedule
computation), the model applies explicit two-complement wraparound
(`wrap64`, reduction into `[-2^63, 2^63)`).  The Go channel
`tokenReady` is modelled by a boolean `tokenReadyClosed` (a channel of
`struct{}` used purely as a broadcast gate is observationally just
"closed or not").  The source has no explicit generation counter: the
identity of the channel value plays that role; here we track it with a
ghost counter `gateGen` (generation of the installed gate) and
`publishedGen` (generation whose publish stored `currentToken`), which
increments exactly when the source replaces the channel.  Blocking
operations return `Option`: `none` means the call does not return in the
given state (it stays blocked until a future step changes the state).
-/

namespace GoToken

/-- Go `time.Second` in nanoseconds (`time.Duration` counts nanoseconds). -/
def second : Int := 1000000000

/-- Go `time.Minute` in nanoseconds. -/
def minute : Int := 60 * second

/-- `TokenResponse` from `pkg/oauth/token.go`: a generic OAuth token
response.  `expires_in` is the reported lifetime in seconds. -/
structure TokenResponse where
  access_token : String
  expires_in : Int
  token_type : String
  scope : String
deriving DecidableEq

/-- The manager state of `TokenManager`.  `currentToken` and the gate
are the shared fields; `bufferTime`, `refreshTime` and the
`onNewToken` callback (modelled as a set/unset flag) are the
configuration fields.  `gateGen` and `publishedGen` are the ghost
generation counters described in the module comment; the `refreshTimer`
field of the source is not part of any observable behaviour and is
omitted. -/
structure TokenManager where
  currentToken : Option TokenResponse
  tokenReadyClosed : Bool
  gateGen : Nat
  publishedGen : Option Nat
  bufferTime : Int
  refreshTime : Int
  onNewToken : Bool
deriving DecidableEq

/-- The three published functional options (`TokenManagerOption`). -/
inductive TMOption where
  | withBufferTime (duration : Int)
  | withRefreshTime (duration : Int)
  | withOnNewToken
deriving DecidableEq

/-- Application of one option to the manager under construction,
mirroring the bodies of `WithBufferTime`, `WithRefreshTime`,
`WithOnNewToken`. -/
def applyOption (tm : TokenManager) : TMOption → TokenManager
  | .withBufferTime d => { tm with bufferTime := d }
  | .withRefreshTime d => { tm with refreshTime := d }
  | .withOnNewToken => { tm with onNewToken := true }

/-- The literal initial state built by `NewTokenManager` before options
are applied: no token, a fresh (open) `tokenReady` channel, buffer time
60 seconds, refresh time 59 minutes, no callback. -/
def initTM : TokenManager :=
  { currentToken := none
    tokenReadyClosed := false
    gateGen := 0
    publishedGen := none
    bufferTime := 60 * second
    refreshTime := 59 * minute
    onNewToken := false }

/-- `NewTokenManager`: build the defaults, then apply the options in
the order supplied.  (The source then starts `go tm.run()`; the loop is
modelled separately by the step functions below.) -/
def NewTokenManager (options : List TMOption) : TokenManager :=
  options.foldl applyOption initTM

/-- Closing a Go channel: closing an already-closed channel panics,
modelled as `none`. -/
def closeChan (closed : Bool) : Option Bool :=
  if closed then none else some true

/-- The ready-signal in `run`:
`select { case <-tm.tokenReady: default: close(tm.tokenReady) }`.
A nonblocking receive on a closed channel succeeds (no-op); otherwise
the default branch closes the channel. -/
def signalReady (closed : Bool) : Option Bool :=
  if closed then some closed else closeChan closed

/-- The ready-signal as a total function on the gate state; it agrees
with `signalReady` wherever the latter is defined, and the latter is
defined everywhere (the guarded signal never faults). -/
def signalReadyB (closed : Bool) : Bool :=
  if closed then closed else true

/-- The publish-and-signal step of one successful iteration of `run`:
store the token under the lock, then run the ready-signal on the
current gate.  The ghost `publishedGen` records that the stored token
belongs to the generation of the installed gate. -/
def publishStep (tm : TokenManager) (token : TokenResponse) : TokenManager :=
  { tm with
      currentToken := some token
      publishedGen := some tm.gateGen
      tokenReadyClosed := signalReadyB tm.tokenReadyClosed }

/-- The gate-replacement step at the bottom of the loop body:
`tm.tokenReady = make(chan struct{})` under the lock.  A fresh gate is
open and belongs to the next generation. -/
def replaceGateStep (tm : TokenManager) : TokenManager :=
  { tm with tokenReadyClosed := false, gateGen := tm.gateGen + 1 }

/-- The failure branch of `run`: log, sleep five seconds, `continue`.
No manager state is touched. -/
def failStep (tm : TokenManager) : TokenManager := tm

/-- The fixed retry delay of the failure branch, `5 * time.Second`. -/
def retryDelay : Int := 5 * second

/-- Two to the sixty-third: the magnitude bound of Go int64, the
representation of `time.Duration`. -/
def int64Bound : Int := 9223372036854775808

/-- Two-complement wraparound of Go int64 arithmetic: reduce an exact
integer into the interval from `-int64Bound` (inclusive) to
`int64Bound` (exclusive). -/
def wrap64 (n : Int) : Int :=
  (n + int64Bound) % (2 * int64Bound) - int64Bound

/-- The exact value fits in a Go int64, so the wrapping arithmetic
agrees with the mathematical one. -/
def durationInRange (n : Int) : Prop :=
  -int64Bound ≤ n ∧ n < int64Bound

instance (n : Int) : Decidable (durationInRange n) :=
  inferInstanceAs (Decidable (-int64Bound ≤ n ∧ n < int64Bound))

/-- The schedule computation of `run`: if `tm.refreshTime > 0` use it
as a fixed interval, else `time.Duration(token.ExpiresIn)*time.Second -
tm.bufferTime`, replaced by five seconds when strictly negative.  Both
the multiplication and the subtraction are Go int64 operations and
wrap on overflow, hence the `wrap64` reductions (a very large
`ExpiresIn` can wrap the product negative, in which case the clamp
yields five seconds). -/
def computeRefreshTime (tm : TokenManager) (token : TokenResponse) : Int :=
  if tm.refreshTime > 0 then
    tm.refreshTime
  else
    let rt := wrap64 (wrap64 (token.expires_in * second) - tm.bufferTime)
    if rt < 0 then 5 * second else rt

/-- Observable outcome of one loop iteration: either the failure branch
with its sleep, or a publish with the computed schedule and whether the
`onNewToken` callback was invoked. -/
inductive LoopOutcome where
  | retried (sleep : Int)
  | published (schedule : Int) (callbackInvoked : Bool)
deriving DecidableEq

/-- One full iteration of the `for` body of `run`, driven by the result
of `tm.provider.GetNewToken()` (`none` models an error return).  On
success: publish and signal, invoke the callback if set, compute the
schedule, wait it out, then replace the gate for the next generation. -/
def runIteration (tm : TokenManager) (acquired : Option TokenResponse) :
    TokenManager × LoopOutcome :=
  match acquired with
  | none => (tm, .retried retryDelay)
  | some token =>
      let tmPub := publishStep tm token
      let schedule := computeRefreshTime tmPub token
      (replaceGateStep tmPub, .published schedule tm.onNewToken)

/-- The loop run over a finite trace of acquisition results. -/
def runTrace (tm : TokenManager) (acquisitions : List (Option TokenResponse)) :
    TokenManager :=
  acquisitions.foldl (fun s a => (runIteration s a).1) tm

/-- `WaitForToken`: `<-tm.tokenReady` returns iff the installed gate is
closed; otherwise the caller stays blocked in this state. -/
def WaitForToken (tm : TokenManager) : Option Unit :=
  if tm.tokenReadyClosed then some () else none

/-- `GetToken`: the bare access token, or empty if none stored. -/
def GetToken (tm : TokenManager) : String :=
  match tm.currentToken with
  | none => ""
  | some token => token.access_token

/-- `GetFullToken`: the complete stored response (possibly `none`). -/
def GetFullToken (tm : TokenManager) : Option TokenResponse :=
  tm.currentToken

/-- `EnsureValidToken`: `tm.WaitForToken(); return nil`.  The outer
`Option` is the blocking behaviour inherited from `WaitForToken`; the
inner `Option String` is the Go `error` result (`none` = nil error). -/
def EnsureValidToken (tm : TokenManager) : Option (Option String) :=
  (WaitForToken tm).map (fun _ => none)

/-- `GetAuthorizationHeader`: `TokenType + " " + AccessToken`, or empty
when no token is stored. -/
def GetAuthorizationHeader (tm : TokenManager) : String :=
  match GetFullToken tm with
  | none => ""
  | some token => token.token_type ++ " " ++ token.access_token

/-- An HTTP request, reduced to its header list. -/
structure Request where
  headers : List (String × String)
deriving DecidableEq

/-- `req.Header.Set(key, value)`: replace any existing entries for the
key with the single new one. -/
def headerSet (req : Request) (key value : String) : Request :=
  { req with headers := (key, value) :: req.headers.filter (fun kv => kv.1 ≠ key) }

/-- `ApplyToRequest`: set the Authorization header when the header
value is nonempty, otherwise leave the request untouched. -/
def ApplyToRequest (tm : TokenManager) (req : Request) : Request :=
  let authHeader := GetAuthorizationHeader tm
  if authHeader ≠ "" then headerSet req "Authorization" authHeader else req

/-- States reachable by the lifecycle steps: construction, the failure
branch, publish-and-signal, and gate replacement. -/
inductive Reachable (options : List TMOption) : TokenManager → Prop where
  | init : Reachable options (NewTokenManager options)
  | fail {tm : TokenManager} : Reachable options tm →
      Reachable options (failStep tm)
  | publish {tm : TokenManager} (token : TokenResponse) :
      Reachable options tm → Reachable options (publishStep tm token)
  | replaceGate {tm : TokenManager} : Reachable options tm →
      Reachable options (replaceGateStep tm)

/-- The gate/credential invariant of the manager state: the installed
gate is closed iff a credential is stored and it was published in the
generation the gate was created for. -/
def gateInvariant (tm : TokenManager) : Prop :=
  tm.tokenReadyClosed = true ↔
    tm.currentToken.isSome = true ∧ tm.publishedGen = some tm.gateGen

/-- Auxiliary bound: a stored credential belongs to the current or an
earlier generation. -/
def genBound (tm : TokenManager) : Prop :=
  ∀ p, tm.publishedGen = some p → p ≤ tm.gateGen

/-- A concrete acquirer result used in concrete runs. -/
def sampleToken : TokenResponse :=
  { access_token := "abc", expires_in := 3600, token_type := "Bearer", scope := "" }

/-- An acquirer result whose access token is the empty string (what the
provider produces from a `200` JSON body lacking `access_token`). -/
def blankToken : TokenResponse :=
  { access_token := "", expires_in := 3600, token_type := "Bearer", scope := "" }

/-- The default-configured manager right after its first publish. -/
def sampleReadyState : TokenManager :=
  publishStep (NewTokenManager []) sampleToken

/-- The default-configured manager after publishing a blank token. -/
def blankPublished : TokenManager :=
  publishStep (NewTokenManager []) blankToken

/-- The default-configured manager after one full successful cycle
(publish, schedule, gate replacement) followed by one failed
re-acquisition. -/
def cycledState : TokenManager :=
  runTrace (NewTokenManager []) [some sampleToken, none]

/-- A request with no headers. -/
def emptyRequest : Request := { headers := [] }

/-- A manager configured with refresh time zero, so the reactive
(expiry-minus-buffer) schedule is active; buffer keeps its default. -/
def reactiveTM : TokenManager := NewTokenManager [TMOption.withRefreshTime 0]

/-- A token reporting a two-hour lifetime. -/
def longToken : TokenResponse :=
  { access_token := "t", expires_in := 7200, token_type := "Bearer", scope := "" }

/-- A token reporting exactly sixty seconds of lifetime, equal to the
default buffer. -/
def shortToken : TokenResponse :=
  { access_token := "t", expires_in := 60, token_type := "Bearer", scope := "" }

/-- A token whose reported lifetime (two to the thirty-fourth seconds,
an ordinary Go int) makes the int64 duration multiplication wrap. -/
def hugeToken : TokenResponse :=
  { access_token := "t", expires_in := 17179869184, token_type := "Bearer", scope := "" }

theorem foldl_applyOption_shared (options : List TMOption) (tm : TokenManager) :
    (options.foldl applyOption tm).currentToken = tm.currentToken ∧
    (options.foldl applyOption tm).tokenReadyClosed = tm.tokenReadyClosed ∧
    (options.foldl applyOption tm).gateGen = tm.gateGen ∧
    (options.foldl applyOption tm).publishedGen = tm.publishedGen := by
  induction options generalizing tm with
  | nil => exact ⟨rfl, rfl, rfl, rfl⟩
  | cons o rest ih =>
    cases o <;> exact ih _

theorem signalReadyB_true (c : Bool) : signalReadyB c = true := by
  cases c <;> rfl

theorem wrap64_of_range {n : Int} (h : durationInRange n) : wrap64 n = n := by
  unfold durationInRange at h
  obtain ⟨h1, h2⟩ := h
  unfold wrap64
  rw [Int.emod_eq_of_lt (by omega) (by omega)]
  omega

theorem reachable_invariant {options : List TMOption} {tm : TokenManager}
    (h : Reachable options tm) : gateInvariant tm ∧ genBound tm := by
  induction h with
  | init =>
      obtain ⟨h1, h2, h3, h4⟩ := foldl_applyOption_shared options initTM
      constructor
      · unfold gateInvariant NewTokenManager
        rw [h1, h2, h4]
        simp [initTM]
      · intro p hp
        unfold NewTokenManager at hp
        rw [h4] at hp
        simp [initTM] at hp
  | fail _ ih => exact ih
  | publish token _ ih =>
      constructor
      · unfold gateInvariant
        simp [publishStep, signalReadyB_true]
      · intro p hp
        simp [publishStep] at hp
        simp [publishStep, hp]
  | replaceGate _ ih =>
      obtain ⟨inv, bound⟩ := ih
      constructor
      · unfold gateInvariant
        simp only [replaceGateStep]
        constructor
        · intro hfalse
          exact absurd hfalse (by simp)
        · rintro ⟨-, hgen⟩
          have := bound _ hgen
          omega
      · intro p hp
        simp only [replaceGateStep] at hp
        have := bound _ hp
        simp only [replaceGateStep]
        omega

/-- C3: in every state reachable by the lifecycle steps (construction,
publish-and-signal, gate replacement, retry on failure), the readiness
gate is closed iff `currentToken` is present and is the credential
published in the generation the gate was created for. -/
theorem C3_gate_invariant (options : List TMOption) (tm : TokenManager)
    (h : Reachable options tm) :
    tm.tokenReadyClosed = true ↔
      tm.currentToken.isSome = true ∧ tm.publishedGen = some tm.gateGen :=
  (reachable_invariant h).1

/-- Witness for C3 at the freshly constructed manager. -/
theorem C3_gate_invariant_witness :
    ((NewTokenManager []).tokenReadyClosed = true ↔
      (NewTokenManager []).currentToken.isSome = true ∧
        (NewTokenManager []).publishedGen = some (NewTokenManager []).gateGen) :=
  C3_gate_invariant [] (NewTokenManager []) Reachable.init

/-- C5: whenever the configured refresh interval is strictly positive,
the computed schedule is exactly that interval, independent of the
`expires_in` reported by the acquirer. -/
theorem C5_fixed_interval_schedule (tm : TokenManager) (token : TokenResponse)
    (h : 0 < tm.refreshTime) :
    computeRefreshTime tm token = tm.refreshTime := by
  unfold computeRefreshTime
  rw [if_pos h]

/-- Witness for C5: 59-minute interval, token reporting 3600 seconds. -/
theorem C5_fixed_interval_schedule_witness :
    0 < (NewTokenManager [TMOption.withRefreshTime (59 * minute)]).refreshTime ∧
    computeRefreshTime (NewTokenManager [TMOption.withRefreshTime (59 * minute)])
      ⟨"tok", 3600, "Bearer", ""⟩ = 59 * minute :=
  ⟨by decide,
   C5_fixed_interval_schedule (NewTokenManager [TMOption.withRefreshTime (59 * minute)])
     ⟨"tok", 3600, "Bearer", ""⟩ (by decide)⟩

/-- C6: a failed acquisition leaves every manager field unchanged
(token, gate, generations, configuration), so `GetToken` and
`WaitForToken` observe exactly the previous state; the iteration
reports a fixed five-second retry sleep, and the loop simply continues
with the rest of the trace (never fatal, never surfaced to callers). -/
theorem C6_failure_frame (tm : TokenManager)
    (acquisitions : List (Option TokenResponse)) :
    runIteration tm none = (tm, LoopOutcome.retried retryDelay) ∧
    retryDelay = 5 * second ∧
    GetToken (runIteration tm none).1 = GetToken tm ∧
    WaitForToken (runIteration tm none).1 = WaitForToken tm ∧
    GetAuthorizationHeader (runIteration tm none).1 = GetAuthorizationHeader tm ∧
    runTrace tm (none :: acquisitions) = runTrace tm acquisitions :=
  ⟨rfl, rfl, rfl, rfl, rfl, rfl⟩

/-- C7: the select-then-close ready-signal is idempotent within a
generation: signalling twice equals signalling once, the second signal
on an already-ready gate is a no-op, and the signal never faults
(`isSome`), while a bare close of an already-closed channel would
(`closeChan true = none`). -/
theorem C7_signal_idempotent (closed : Bool) :
    (signalReady closed).bind signalReady = signalReady closed ∧
    (signalReady closed).isSome = true ∧
    signalReady true = some true ∧
    closeChan true = none ∧
    signalReadyB (signalReadyB closed) = signalReadyB closed ∧
    signalReady closed = some (signalReadyB closed) := by
  cases closed <;> exact ⟨rfl, rfl, rfl, rfl, rfl, rfl⟩

/-- C1 counterexample: after one full cycle of the default-configured
manager had published a credential and then replaced the gate, and a
later re-acquisition is failing, the credential is still published
(`GetToken` returns it) yet `WaitForToken` does not return, and it
stays blocked while further re-acquisitions keep failing — refuting
"once at least one credential has been published, any call to
WaitForToken returns without blocking". -/
theorem C1_counterexample :
    cycledState.currentToken.isSome = true ∧
    GetToken cycledState = "abc" ∧
    WaitForToken cycledState = none ∧
    runTrace cycledState (List.replicate 5 none) = cycledState :=
  ⟨rfl, rfl, rfl, rfl⟩

/-- C1 (amended): `WaitForToken` blocks until the credential of the
CURRENT generation is published: after a publish-and-signal it returns
immediately, after the scheduled-wait gate replacement it blocks again
until the next generation publishes (even though an earlier credential
may remain available), and a failed acquisition does not change whether
it blocks. -/
theorem C1_wait_per_generation (tm : TokenManager) (token : TokenResponse) :
    WaitForToken (publishStep tm token) = some () ∧
    WaitForToken (replaceGateStep tm) = none ∧
    WaitForToken (failStep tm) = WaitForToken tm := by
  refine ⟨?_, rfl, rfl⟩
  simp [WaitForToken, publishStep, signalReadyB_true]

/-- C2 counterexample: the acquirer can publish a credential whose
access token is the empty string; `WaitForToken` then returns but
`GetToken` returns `""` — refuting the unconditional "GetToken returns
a non-empty token". -/
theorem C2_counterexample :
    WaitForToken blankPublished = some () ∧ GetToken blankPublished = "" :=
  ⟨rfl, rfl⟩

/-- C2 (amended): in any reachable state in which `WaitForToken`
returns, a credential is stored, it belongs to the generation of the
gate whose readiness released the waiter, and `GetToken` returns
exactly the access token of that credential (hence is non-empty
whenever the acquirer supplied a non-empty token); in particular
`WaitForToken` never returns before a successful acquisition has stored
a credential. -/
theorem C2_release_observes_publish (options : List TMOption)
    (tm : TokenManager) (h : Reachable options tm)
    (hw : WaitForToken tm = some ()) :
    tm.currentToken.isSome = true ∧
    tm.publishedGen = some tm.gateGen ∧
    GetToken tm = (tm.currentToken.map TokenResponse.access_token).getD "" := by
  have hc : tm.tokenReadyClosed = true := by
    by_contra hc
    simp [WaitForToken, hc] at hw
  obtain ⟨hsome, hgen⟩ := ((reachable_invariant h).1).mp hc
  refine ⟨hsome, hgen, ?_⟩
  cases htok : tm.currentToken with
  | none => rw [htok] at hsome; cases hsome
  | some token => simp [GetToken, htok]

/-- Witness for C2 at the first publish of the default manager. -/
theorem C2_release_observes_publish_witness :
    WaitForToken sampleReadyState = some () ∧
    (sampleReadyState.currentToken.isSome = true ∧
     sampleReadyState.publishedGen = some sampleReadyState.gateGen ∧
     GetToken sampleReadyState =
       (sampleReadyState.currentToken.map TokenResponse.access_token).getD "") :=
  ⟨rfl,
   C2_release_observes_publish [] sampleReadyState
     (Reachable.publish sampleToken Reachable.init) rfl⟩

/-- C4 counterexample: with the reactive schedule active (refresh time
set to zero) and the default 60-second buffer, a token reporting
exactly 60 seconds of life yields a computed schedule of exactly zero —
not strictly positive — because only strictly negative values are
replaced by the five-second floor.  Moreover at a huge but
representable `ExpiresIn` the int64 duration multiplication wraps
negative and the program clamps to five seconds, so the schedule also
fails to equal reported expiry minus buffer. -/
theorem C4_counterexample :
    computeRefreshTime reactiveTM shortToken = 0 ∧
    ¬(0 < computeRefreshTime reactiveTM shortToken) ∧
    computeRefreshTime reactiveTM hugeToken = 5 * second ∧
    ¬(computeRefreshTime reactiveTM hugeToken =
        hugeToken.expires_in * second - reactiveTM.bufferTime) := by
  refine ⟨rfl, by decide, by decide, by decide⟩

/-- C4 (amended): when the refresh interval is unset (≤ 0), the
schedule is reported expiry minus buffer computed in Go int64 duration
arithmetic, with strictly negative results replaced by five seconds;
the result is always nonnegative, and whenever neither the
multiplication nor the subtraction overflows int64 it equals the true
difference (five seconds when that difference is negative), and it is
zero exactly when expiry minus buffer is exactly zero — that boundary
case is not lifted to a positive floor.  When the wrapped value is
negative (also through overflow of the multiplication, e.g. a very
large `ExpiresIn`), the program clamps to five seconds. -/
theorem C4_reactive_schedule (tm : TokenManager) (token : TokenResponse)
    (h : tm.refreshTime ≤ 0) :
    0 ≤ computeRefreshTime tm token ∧
    (durationInRange (token.expires_in * second) →
     durationInRange (token.expires_in * second - tm.bufferTime) →
      (token.expires_in * second - tm.bufferTime < 0 →
        computeRefreshTime tm token = 5 * second) ∧
      (0 ≤ token.expires_in * second - tm.bufferTime →
        computeRefreshTime tm token =
          token.expires_in * second - tm.bufferTime) ∧
      (computeRefreshTime tm token = 0 ↔
        token.expires_in * second = tm.bufferTime)) ∧
    (wrap64 (wrap64 (token.expires_in * second) - tm.bufferTime) < 0 →
      computeRefreshTime tm token = 5 * second) := by
  have hs : (0 : Int) < second := by decide
  unfold computeRefreshTime
  rw [if_neg (by omega)]
  refine ⟨?_, ?_, ?_⟩
  · by_cases hw : wrap64 (wrap64 (token.expires_in * second) - tm.bufferTime) < 0
    · rw [if_pos hw]; omega
    · rw [if_neg hw]; omega
  · intro hp hd
    rw [wrap64_of_range hp, wrap64_of_range hd]
    by_cases hrt : token.expires_in * second - tm.bufferTime < 0
    · rw [if_pos hrt]
      refine ⟨fun _ => rfl, fun hge => ?_, ?_, ?_⟩
      · omega
      · intro h5; omega
      · intro heq; omega
    · rw [if_neg hrt]
      exact ⟨fun hlt => absurd hlt hrt, fun _ => rfl, by omega⟩
  · intro hw
    rw [if_pos hw]

/-- Witness for C4: refresh time set to zero, a two-hour token with the
default one-minute buffer; all hypotheses, including the
representability ones, are discharged concretely. -/
theorem C4_reactive_schedule_witness :
    reactiveTM.refreshTime ≤ 0 ∧
    durationInRange (longToken.expires_in * second) ∧
    durationInRange (longToken.expires_in * second - reactiveTM.bufferTime) ∧
    0 ≤ longToken.expires_in * second - reactiveTM.bufferTime ∧
    0 ≤ computeRefreshTime reactiveTM longToken ∧
    computeRefreshTime reactiveTM longToken =
      longToken.expires_in * second - reactiveTM.bufferTime :=
  ⟨by decide, by decide, by decide, by decide,
   (C4_reactive_schedule reactiveTM longToken (by decide)).1,
   (((C4_reactive_schedule reactiveTM longToken (by decide)).2.1
       (by decide) (by decide)).2.1 (by decide))⟩

/-- C8: with a published credential whose token is "abc" and kind
"Bearer", `ApplyToRequest` sets the Authorization header of any request
to exactly "Bearer abc"; with no published credential,
`ApplyToRequest` leaves the headers entirely unchanged and
`GetAuthorizationHeader` returns the empty string. -/
theorem C8_header_application (tm : TokenManager) (req : Request)
    (e : Int) (s : String) :
    (tm.currentToken =
        some { access_token := "abc", expires_in := e,
               token_type := "Bearer", scope := s } →
      GetAuthorizationHeader tm = "Bearer abc" ∧
      ApplyToRequest tm req = headerSet req "Authorization" "Bearer abc") ∧
    (tm.currentToken = none →
      ApplyToRequest tm req = req ∧ GetAuthorizationHeader tm = "") := by
  constructor
  · intro h
    have hga : GetAuthorizationHeader tm = "Bearer abc" := by
      simp [GetAuthorizationHeader, GetFullToken, h]
    refine ⟨hga, ?_⟩
    unfold ApplyToRequest
    rw [hga, if_pos (by decide)]
  · intro h
    have hga : GetAuthorizationHeader tm = "" := by
      simp [GetAuthorizationHeader, GetFullToken, h]
    refine ⟨?_, hga⟩
    unfold ApplyToRequest
    rw [hga, if_neg (by decide)]

/-- Witness for C8: both branches at concrete states — the default
manager after publishing `sampleToken`, and the fresh manager with no
credential. -/
theorem C8_header_application_witness :
    sampleReadyState.currentToken =
      some { access_token := "abc", expires_in := 3600,
             token_type := "Bearer", scope := "" } ∧
    (GetAuthorizationHeader sampleReadyState = "Bearer abc" ∧
     ApplyToRequest sampleReadyState emptyRequest =
       headerSet emptyRequest "Authorization" "Bearer abc") ∧
    (NewTokenManager []).currentToken = none ∧
    (ApplyToRequest (NewTokenManager []) emptyRequest = emptyRequest ∧
     GetAuthorizationHeader (NewTokenManager []) = "") :=
  ⟨rfl,
   (C8_header_application sampleReadyState emptyRequest 3600 "").1 rfl,
   rfl,
   (C8_header_application (NewTokenManager []) emptyRequest 0 "").2 rfl⟩

/-- C9 counterexample: construction with a negative buffer succeeds and
stores the negative value verbatim — `NewTokenManager` performs no
validation and has no error result, refuting "detected at construction
and surfaced as a ConfigurationError". -/
theorem C9_counterexample :
    (NewTokenManager [TMOption.withBufferTime (-second)]).bufferTime = -second ∧
    (NewTokenManager [TMOption.withBufferTime (-second)]).bufferTime < 0 ∧
    (NewTokenManager [TMOption.withBufferTime (-second)]).currentToken = none := by
  refine ⟨rfl, by decide, rfl⟩

/-- C9 (amended): `NewTokenManager` validates nothing: any buffer
value, even a negative one, is accepted and stored unchanged, and
construction completes normally (fresh open gate, no credential, other
defaults intact); construction has no error channel, so nothing is
surfaced — consequences appear only later in the schedule computation
of the loop. -/
theorem C9_no_construction_validation (d : Int) (_neg : d < 0) :
    (NewTokenManager [TMOption.withBufferTime d]).bufferTime = d ∧
    (NewTokenManager [TMOption.withBufferTime d]).currentToken = none ∧
    (NewTokenManager [TMOption.withBufferTime d]).tokenReadyClosed = false ∧
    (NewTokenManager [TMOption.withBufferTime d]).refreshTime = 59 * minute :=
  ⟨rfl, rfl, rfl, rfl⟩

/-- Witness for C9 at buffer minus one second. -/
theorem C9_no_construction_validation_witness :
    (-second < 0) ∧
    ((NewTokenManager [TMOption.withBufferTime (-second)]).bufferTime = -second ∧
     (NewTokenManager [TMOption.withBufferTime (-second)]).currentToken = none ∧
     (NewTokenManager [TMOption.withBufferTime (-second)]).tokenReadyClosed = false ∧
     (NewTokenManager [TMOption.withBufferTime (-second)]).refreshTime = 59 * minute) :=
  ⟨by decide, C9_no_construction_validation (-second) (by decide)⟩

/-- C10: whenever `EnsureValidToken` returns, the error it reports is
nil — its error result carries no information, regardless of how many
acquisitions have failed. -/
theorem C10_ensure_valid_token_nil_error (tm : TokenManager)
    (e : Option String) (h : EnsureValidToken tm = some e) : e = none := by
  unfold EnsureValidToken WaitForToken at h
  by_cases hc : tm.tokenReadyClosed
  · simp [hc] at h
    exact h.symm
  · simp [hc] at h

/-- Witness for C10 at a state with a published credential. -/
theorem C10_ensure_valid_token_nil_error_witness :
    EnsureValidToken sampleReadyState = some none ∧
    ((none : Option String) = none) :=
  ⟨rfl, C10_ensure_valid_token_nil_error sampleReadyState none rfl⟩

end GoToken
